import Mathlib

/-!
Shallow embedding of the video-processing core of the repository
`python-video-downloader` (files `src/core/video_processor.py`,
`src/cli/main.py`, `src/utils/video_finder.py`), together with theorems
settling the specification claims about it.

Modelling conventions:
* Python `int(x)` applied to a float truncates toward zero; it is embedded as
  `pyInt` on exact rationals (floats are idealised as exact rationals; every
  concrete instance proved below has been checked to be robust to binary64
  rounding, i.e. the float computation and the exact computation agree).
* Python truthiness of optional numbers (`if scale_factor:` treats both
  `None` and `0` as false) is embedded by the `pyTruthy·` helpers.
* File sizes are compared in bytes.  The source compares
  `st_size / (1024*1024)` as floats; division by the constant `2^20` is an
  exact, strictly monotone binary64 operation on all realistic sizes, so the
  comparison on bytes is equivalent.
* Calls to external collaborators (ffmpeg encode, download, filesystem
  probes) are modelled by oracle parameters giving their outcomes.
-/

/-- Python `int()` applied to a real value: truncation toward zero
(for negative values, `-⌊-q⌋` is the ceiling, i.e. truncation). -/
def pyInt (q : ℚ) : ℤ := if 0 ≤ q then ⌊q⌋ else -⌊-q⌋

/-- Python truthiness of an optional float (`None` and `0.0` are falsy). -/
def pyTruthyQ : Option ℚ → Bool
  | none => false
  | some q => decide (q ≠ 0)

/-- Python truthiness of an optional int (`None` and `0` are falsy). -/
def pyTruthyZ : Option ℤ → Bool
  | none => false
  | some n => decide (n ≠ 0)

/-- Python truthiness of an optional nonnegative int (bitrates). -/
def pyTruthyN : Option ℕ → Bool
  | none => false
  | some n => decide (n ≠ 0)

/-- The raw (pre even-adjustment) dimensions computed by
`VideoProcessor.calculate_new_dimensions` (video_processor.py lines 114-132):
scale-factor branch, max-bounds branch (more restrictive ratio when both
bounds are given), else pass-through. -/
def rawDims (ow oh : ℤ) (mw mh : Option ℤ) (sf : Option ℚ) : ℤ × ℤ :=
  if pyTruthyQ sf then
    let f := sf.getD 0
    (pyInt ((ow : ℚ) * f), pyInt ((oh : ℚ) * f))
  else if pyTruthyZ mw || pyTruthyZ mh then
    let ratio : ℚ :=
      if pyTruthyZ mw && pyTruthyZ mh then
        min ((mw.getD 0 : ℚ) / (ow : ℚ)) ((mh.getD 0 : ℚ) / (oh : ℚ))
      else if pyTruthyZ mw then (mw.getD 0 : ℚ) / (ow : ℚ)
      else (mh.getD 0 : ℚ) / (oh : ℚ)
    (pyInt ((ow : ℚ) * ratio), pyInt ((oh : ℚ) * ratio))
  else (ow, oh)

/-- The even-alignment post-step of `calculate_new_dimensions`
(lines 134-136): an odd value is decremented by 1. -/
def evenAdjust (n : ℤ) : ℤ := if n % 2 = 0 then n else n - 1

/-- `VideoProcessor.calculate_new_dimensions` (lines 105-138): raw planning
followed by independent even adjustment of each axis. -/
def calculate_new_dimensions (ow oh : ℤ) (mw mh : Option ℤ) (sf : Option ℚ) :
    ℤ × ℤ :=
  (evenAdjust (rawDims ow oh mw mh sf).1, evenAdjust (rawDims ow oh mw mh sf).2)

example : calculate_new_dimensions 1920 1080 (some 1280) none none = (1280, 720) := by
  norm_num [calculate_new_dimensions, rawDims, evenAdjust, pyInt, pyTruthyQ, pyTruthyZ]

example : calculate_new_dimensions 1920 1080 none none (some ((1:ℚ)/2)) = (960, 540) := by
  norm_num [calculate_new_dimensions, rawDims, evenAdjust, pyInt, pyTruthyQ, pyTruthyZ]

/-- The supported-format table `VideoProcessor.SUPPORTED_FORMATS`
(video_processor.py lines 17-26): container extension ↦ (video codec, audio
codec); `none` for an extension outside the closed set. -/
def lookupFormat (f : String) : Option (String × String) :=
  if f = "mp4" then some ("libx264", "aac")
  else if f = "webm" then some ("libvpx-vp9", "libvorbis")
  else if f = "avi" then some ("libx264", "mp3")
  else if f = "mov" then some ("libx264", "aac")
  else if f = "mkv" then some ("libx264", "aac")
  else if f = "wmv" then some ("wmv2", "wmav2")
  else if f = "flv" then some ("libx264", "aac")
  else if f = "m4v" then some ("libx264", "aac")
  else none

/-- Membership in the closed set of supported formats
(`output_format not in self.SUPPORTED_FORMATS`). -/
def supportedFormat (f : String) : Bool := (lookupFormat f).isSome

/-- The video codec `SUPPORTED_FORMATS[fmt]['video_codec']`; only accessed
after the membership check has passed, so the fallback is unreachable. -/
def videoCodecOf (f : String) : String := ((lookupFormat f).map (·.1)).getD ""

/-- `VideoProcessor.COMPRESSION_PRESETS` (lines 28-34):
preset name ↦ (crf, ffmpeg speed preset). -/
def presetLookup (l : String) : Option (ℕ × String) :=
  if l = "lossless" then some (0, "veryslow")
  else if l = "high" then some (18, "slow")
  else if l = "medium" then some (23, "medium")
  else if l = "low" then some (28, "fast")
  else if l = "very_low" then some (35, "veryfast")
  else none

/-- The H.264 bitrate-cap ratio table `level_to_ratio` with the `.get`
default of 0.55 (lines 232-238). -/
def level_to_ratio (l : String) : ℚ :=
  if l = "high" then 7/10
  else if l = "medium" then 11/20
  else if l = "low" then 2/5
  else if l = "very_low" then 1/4
  else 11/20

/-- The maxrate/bufsize computation of `optimize_video` (lines 230-244):
applied only for non-lossless H.264 output when the source bitrate is known
(truthy); returns `(maxrate_kbps, bufsize_kbps)`. -/
def rateParams (lossless : Bool) (videoCodec : String) (bitrate : Option ℕ)
    (level : String) : Option (ℤ × ℤ) :=
  if !lossless && (videoCodec == "libx264") && pyTruthyN bitrate then
    let maxrate := pyInt ((bitrate.getD 0 : ℚ) * level_to_ratio level / 1000)
    some (maxrate, max (maxrate * 2) 1000)
  else none

/-- The same rate parameters expressed in bits per second (the code passes
the kbps values to ffmpeg with a `k` suffix). -/
def rateParamsBps (lossless : Bool) (videoCodec : String) (bitrate : Option ℕ)
    (level : String) : Option (ℤ × ℤ) :=
  (rateParams lossless videoCodec bitrate level).map (fun p => (p.1 * 1000, p.2 * 1000))

/-- The fully resolved encoder instruction assembled by `optimize_video`
(lines 209-263). -/
structure EncodeSpec where
  crf : ℕ
  speed : String
  maxrateKbps : Option ℤ
  bufsizeKbps : Option ℤ
  audioBitrateKbps : Option ℕ
deriving DecidableEq, Repr

/-- Assembly of the encode parameters in `optimize_video`: compression
settings (lines 209-212: the lossless preset when `lossless`, otherwise the
named preset with `medium` as `.get` default), the bitrate cap (lines
230-244) and the audio bitrate (line 259: only when the source has audio and
the request is not lossless). -/
def buildEncodeSpec (lossless : Bool) (level : String) (videoCodec : String)
    (bitrate : Option ℕ) (hasAudio : Bool) (audioKbps : ℕ) : EncodeSpec :=
  let cs := if lossless then (presetLookup "lossless").getD (0, "veryslow")
            else (presetLookup level).getD ((presetLookup "medium").getD (23, "medium"))
  let rp := rateParams lossless videoCodec bitrate level
  { crf := cs.1
    speed := cs.2
    maxrateKbps := rp.map (·.1)
    bufsizeKbps := rp.map (·.2)
    audioBitrateKbps := if hasAudio && !lossless then some audioKbps else none }

/-- Python `a or b` on an optional string (`None` and `""` are falsy). -/
def pyOrStr (a : Option String) (b : String) : String :=
  match a with
  | none => b
  | some s => if s = "" then b else s

/-- Output-format resolution of `optimize_video` (lines 176-182): with no
explicit output path the format defaults to the source format, otherwise to
the output path's extension; an explicit `output_format` wins in both cases. -/
def resolveOutputFormat (outPathExt : Option String) (outputFormat : Option String)
    (srcFormat : String) : String :=
  match outPathExt with
  | none => pyOrStr outputFormat srcFormat
  | some ext => pyOrStr outputFormat ext

/-- The post-encode size-guard condition of `optimize_video` (line 271):
`ensure_smaller and output_format == video_info['format'] and
new_size >= original_size and not lossless`. -/
def guardFires (ensureSmaller : Bool) (outFmt srcFmt : String)
    (encodedBytes origBytes : ℕ) (lossless : Bool) : Bool :=
  ensureSmaller && (outFmt == srcFmt) && decide (origBytes ≤ encodedBytes) && !lossless

/-- Default of the `ensure_smaller` keyword parameter of `optimize_video`
(line 151). -/
def ensure_smaller_default : Bool := true

/-- A `get_video_info` snapshot of the source file (width, height, container
format, size in bytes, optional measured bitrate in bits per second). -/
structure MediaInfo where
  width : ℤ
  height : ℤ
  format : String
  sizeBytes : ℕ
  bitrate : Option ℕ
deriving DecidableEq, Repr

/-- The observable outcome of a successful `optimize_video` run. -/
structure OptimizeOutcome where
  fmt : String
  dims : ℤ × ℤ
  spec : EncodeSpec
  guardFired : Bool
  deliveredBytes : ℕ
deriving DecidableEq, Repr

/-- `VideoProcessor.optimize_video` (lines 140-287).  External effects are
oracles: `inputExists` (line 170), `src` is the `get_video_info` result
(line 174), `encodedBytes` the size the external encoder produced.  The
function checks input existence, resolves and validates the output format
(error before any encode), plans dimensions, assembles the `EncodeSpec`,
encodes, and applies the size guard (lines 270-277), substituting the
original file when the guard fires. -/
def optimize_video_model (inputExists : Bool) (src : MediaInfo)
    (outPathExt : Option String) (outputFormat : Option String)
    (compressionLevel : String) (maxWidth maxHeight : Option ℤ)
    (scaleFactor : Option ℚ) (lossless : Bool) (hasAudio : Bool)
    (audioKbps : ℕ) (ensureSmaller : Bool) (encodedBytes : ℕ) :
    Except String OptimizeOutcome :=
  if !inputExists then .error "Input video not found" else
  let fmt := resolveOutputFormat outPathExt outputFormat src.format
  if !(supportedFormat fmt) then .error ("Unsupported output format: " ++ fmt) else
  let dims := calculate_new_dimensions src.width src.height maxWidth maxHeight scaleFactor
  let spec := buildEncodeSpec lossless compressionLevel (videoCodecOf fmt)
      src.bitrate hasAudio audioKbps
  let fired := guardFires ensureSmaller fmt src.format encodedBytes src.sizeBytes lossless
  .ok { fmt := fmt, dims := dims, spec := spec, guardFired := fired,
        deliveredBytes := if fired then src.sizeBytes else encodedBytes }

/-- Python `str.lower()` on the ASCII format tags used here (defined over
the character list so that it evaluates inside the kernel). -/
def strToLower (s : String) : String := ⟨s.data.map Char.toLower⟩

/-- Python `.lstrip(".")`: drop all leading dots. -/
def lstripDot (s : String) : String := ⟨s.data.dropWhile (· == '.')⟩

/-- `VideoProcessor.convert_format` (lines 289-358) up to the encoder call:
input-existence check, target normalisation `lower().lstrip('.')`,
closed-set validation (lines 313-315), then the encode whose outcome is the
oracle `encodeResult`. -/
def convert_format_model (inputExists : Bool) (targetFormat : String)
    (encodeResult : Except String Unit) : Except String String :=
  if !inputExists then .error "Input video not found" else
  let t := lstripDot (strToLower targetFormat)
  if !(supportedFormat t) then .error ("Unsupported target format: " ++ t) else
  match encodeResult with
  | .error e => .error ("Error converting video: " ++ e)
  | .ok _ => .ok t

/-- One per-item log event of `VideoCLI.process_from_config`
(cli/main.py lines 253-304): an item processed to completion, or a local
item skipped because its path is missing. -/
inductive BatchEvent where
  | processed (name : String)
  | skippedMissing (name : String)
deriving DecidableEq, Repr

/-- A `videos` (remote) config entry together with the outcomes of its
external steps: the download (line 266) and the optimize call (line 270). -/
structure RemoteItem where
  name : String
  download : Except String Unit
  optimizeOutcome : Except String Unit
deriving Repr

/-- A `local_videos` config entry with its path-existence check (line 286)
and the outcome of its optimize call (line 295). -/
structure LocalItem where
  name : String
  pathExists : Bool
  optimizeOutcome : Except String Unit
deriving Repr

/-- The `videos` loop of `process_from_config` (lines 262-279): download then
optimize each item; an exception from either step propagates and aborts the
whole method (there is no per-item handler). -/
def runRemoteItems : List RemoteItem → Except String (List BatchEvent)
  | [] => .ok []
  | it :: rest =>
    match it.download with
    | .error e => .error e
    | .ok _ =>
      match it.optimizeOutcome with
      | .error e => .error e
      | .ok _ => (runRemoteItems rest).map (BatchEvent.processed it.name :: ·)

/-- The `local_videos` loop of `process_from_config` (lines 282-304): a
missing path is logged and skipped with `continue` (lines 286-288); an
exception from the optimize call propagates and aborts the whole method. -/
def runLocalItems : List LocalItem → Except String (List BatchEvent)
  | [] => .ok []
  | it :: rest =>
    if !it.pathExists then
      (runLocalItems rest).map (BatchEvent.skippedMissing it.name :: ·)
    else
      match it.optimizeOutcome with
      | .error e => .error e
      | .ok _ => (runLocalItems rest).map (BatchEvent.processed it.name :: ·)

/-- `VideoCLI.process_from_config` (lines 253-304): the remote loop runs
first, then the local loop; an uncaught exception in either aborts the run
(it is caught only at top level in `run`, which exits).  The returned event
list models the per-item progress messages; the method computes no
success/failure counts. -/
def process_from_config (remotes : List RemoteItem) (localItems : List LocalItem) :
    Except String (List BatchEvent) :=
  match runRemoteItems remotes with
  | .error e => .error e
  | .ok evs1 =>
    match runLocalItems localItems with
    | .error e => .error e
    | .ok evs2 => .ok (evs1 ++ evs2)

/-- Number of successfully processed items in a batch log. -/
def countProcessed (evs : List BatchEvent) : ℕ :=
  evs.countP fun e => match e with | .processed _ => true | _ => false

/-- Number of skipped-missing items in a batch log. -/
def countSkipped (evs : List BatchEvent) : ℕ :=
  evs.countP fun e => match e with | .skippedMissing _ => true | _ => false

/-- `VideoFinder.get_video_by_index` (video_finder.py lines 70-75): the
video at `index` when `0 <= index < len(videos)`, else `None`.  A video is
modelled as its `(name, path)` pair. -/
def get_video_by_index (index : ℤ) (videos : List (String × String)) :
    Option (String × String) :=
  if 0 ≤ index ∧ index < (videos.length : ℤ) then videos[index.toNat]? else none

/-- `VideoFinder.get_video_by_name` (lines 62-68): first video whose name
matches case-insensitively. -/
def get_video_by_name (name : String) (videos : List (String × String)) :
    Option (String × String) :=
  videos.find? (fun v => strToLower v.1 == strToLower name)

/-- The part of `VideoCLI.resolve_video_input` (cli/main.py lines 124-146)
reached after the numeric branch: exact-name match, then path-existence
check, then the final error. -/
def resolve_fallthrough (videos : List (String × String)) (pathExists : Bool)
    (inputStr : String) : Except String String :=
  match get_video_by_name inputStr videos with
  | some v => .ok v.2
  | none =>
    if pathExists then .ok inputStr
    else .error ("Could not find video: " ++ inputStr)

/-- `VideoCLI.resolve_video_input` (lines 106-146).  `parsedIndex` is the
result of `int(input_str)` (`none` when parsing raises `ValueError`).  Both
that `ValueError` and the `ValueError` raised on an invalid index (line 120)
are caught by the same `except ValueError: pass` (line 121), after which
resolution falls through to name matching and path checking. -/
def resolve_video_input (parsedIndex : Option ℤ) (videos : List (String × String))
    (pathExists : Bool) (inputStr : String) : Except String String :=
  match parsedIndex with
  | some n =>
    match get_video_by_index (n - 1) videos with
    | some v => .ok v.2
    | none => resolve_fallthrough videos pathExists inputStr
  | none => resolve_fallthrough videos pathExists inputStr

theorem evenAdjust_even (n : ℤ) : evenAdjust n % 2 = 0 := by
  unfold evenAdjust
  split_ifs with h
  · exact h
  · omega

theorem evenAdjust_cases (n : ℤ) :
    (evenAdjust n = n ∧ n % 2 = 0) ∨ (evenAdjust n = n - 1 ∧ n % 2 = 1) := by
  unfold evenAdjust
  split_ifs with h
  · exact Or.inl ⟨rfl, h⟩
  · exact Or.inr ⟨rfl, by omega⟩

theorem evenAdjust_le (n : ℤ) : evenAdjust n ≤ n := by
  unfold evenAdjust
  split_ifs <;> omega

theorem pyInt_nonpos (q : ℚ) (h : q ≤ 0) : pyInt q ≤ 0 := by
  unfold pyInt
  split_ifs with h0
  · calc ⌊q⌋ ≤ ⌊(0:ℚ)⌋ := Int.floor_mono h
      _ = 0 := Int.floor_zero
  · have : (0:ℚ) ≤ -q := by linarith
    have := Int.floor_nonneg.mpr this
    omega

theorem pyInt_le_of_nonneg (q : ℚ) (h : 0 ≤ q) : (pyInt q : ℚ) ≤ q := by
  unfold pyInt
  rw [if_pos h]
  exact Int.floor_le q

theorem level_to_ratio_bounds (l : String) :
    0 < level_to_ratio l ∧ level_to_ratio l < 1 := by
  unfold level_to_ratio
  split_ifs <;> norm_num

/-- C3 (counterexample): the planner does not guarantee dimensions ≥ 2.
With positive originals 2×2 and scale factor 1/2 the intermediate
dimensions are 1×1 and the even adjustment yields 0×0, below the claimed
lower bound of 2. -/
theorem dims_at_least_two_cex :
    calculate_new_dimensions 2 2 none none (some ((1:ℚ)/2)) = (0, 0)
    ∧ (calculate_new_dimensions 2 2 none none (some ((1:ℚ)/2))).1 < 2 := by
  constructor
  · norm_num [calculate_new_dimensions, rawDims, evenAdjust, pyInt, pyTruthyQ, pyTruthyZ]
  · norm_num [calculate_new_dimensions, rawDims, evenAdjust, pyInt, pyTruthyQ, pyTruthyZ]

/-- C3 (amended): for every input the planner's results are both even, and
each axis is independently either the raw planned value (when already even)
or that value decremented by exactly 1 (when odd) — never incremented.  The
claimed lower bound of 2 does not hold (see the counterexample). -/
theorem dims_even_decrement_independent (ow oh : ℤ) (mw mh : Option ℤ) (sf : Option ℚ) :
    (calculate_new_dimensions ow oh mw mh sf).1 % 2 = 0
    ∧ (calculate_new_dimensions ow oh mw mh sf).2 % 2 = 0
    ∧ (((calculate_new_dimensions ow oh mw mh sf).1 = (rawDims ow oh mw mh sf).1
          ∧ (rawDims ow oh mw mh sf).1 % 2 = 0)
        ∨ ((calculate_new_dimensions ow oh mw mh sf).1 = (rawDims ow oh mw mh sf).1 - 1
          ∧ (rawDims ow oh mw mh sf).1 % 2 = 1))
    ∧ (((calculate_new_dimensions ow oh mw mh sf).2 = (rawDims ow oh mw mh sf).2
          ∧ (rawDims ow oh mw mh sf).2 % 2 = 0)
        ∨ ((calculate_new_dimensions ow oh mw mh sf).2 = (rawDims ow oh mw mh sf).2 - 1
          ∧ (rawDims ow oh mw mh sf).2 % 2 = 1)) :=
  ⟨evenAdjust_even _, evenAdjust_even _, evenAdjust_cases _, evenAdjust_cases _⟩

/-- C4 (counterexample): on 1280×720 with max-bounds 721×481 the planner
does not return height 406: the exact intermediate height is
720·(721/1280) = 405.5625, truncated to 405 and even-adjusted to 404. -/
theorem max_bounds_721_481_cex :
    calculate_new_dimensions 1280 720 (some 721) (some 481) none ≠ (720, 406) := by
  norm_num [calculate_new_dimensions, rawDims, evenAdjust, pyInt, pyTruthyQ, pyTruthyZ, min_def]

/-- C4 (amended): on 1280×720 with max-bounds maxW=721, maxH=481 the planner
uses ratio min(721/1280, 481/720) = 721/1280 and returns width 720 and
height 404. -/
theorem max_bounds_721_481_amended :
    calculate_new_dimensions 1280 720 (some 721) (some 481) none = (720, 404) := by
  norm_num [calculate_new_dimensions, rawDims, evenAdjust, pyInt, pyTruthyQ, pyTruthyZ, min_def]

/-- C7 (counterexample): a nonpositive directive is not rejected — there is
no validation anywhere in `calculate_new_dimensions`.  With scale factor
−1/2 on 1280×720, planning proceeds and returns −640×−360 instead of
raising. -/
theorem nonpositive_directive_not_rejected_cex :
    calculate_new_dimensions 1280 720 none none (some (-(1:ℚ)/2)) = (-640, -360) := by
  norm_num [calculate_new_dimensions, rawDims, evenAdjust, pyInt, pyTruthyQ, pyTruthyZ]

/-- C7 (amended): the planner performs no input validation.  A scale factor
of 0 and bounds of 0 are merely treated as absent (falsy), degenerating to
the no-op variant, and a negative scale factor flows through planning and
produces nonpositive dimensions on positive originals. -/
theorem no_validation_of_directives (ow oh : ℤ) (f : ℚ)
    (hw : 0 < ow) (hh : 0 < oh) (hf : f < 0) :
    (calculate_new_dimensions ow oh none none (some f)).1 ≤ 0
    ∧ (calculate_new_dimensions ow oh none none (some f)).2 ≤ 0
    ∧ calculate_new_dimensions ow oh none none (some 0)
        = calculate_new_dimensions ow oh none none none
    ∧ calculate_new_dimensions ow oh (some 0) (some 0) none
        = calculate_new_dimensions ow oh none none none := by
  have hneg : ∀ m : ℤ, 0 < m → (m : ℚ) * f ≤ 0 := by
    intro m hm
    have : (0:ℚ) < (m:ℚ) := by exact_mod_cast hm
    nlinarith
  have hraw : rawDims ow oh none none (some f)
      = (pyInt ((ow : ℚ) * f), pyInt ((oh : ℚ) * f)) := by
    have : pyTruthyQ (some f) = true := by
      simp [pyTruthyQ]
      intro h
      rw [h] at hf
      exact absurd hf (by norm_num)
    simp [rawDims, this]
  refine ⟨?_, ?_, ?_, ?_⟩
  · calc (calculate_new_dimensions ow oh none none (some f)).1
        ≤ (rawDims ow oh none none (some f)).1 := evenAdjust_le _
      _ = pyInt ((ow : ℚ) * f) := by rw [hraw]
      _ ≤ 0 := pyInt_nonpos _ (hneg ow hw)
  · calc (calculate_new_dimensions ow oh none none (some f)).2
        ≤ (rawDims ow oh none none (some f)).2 := evenAdjust_le _
      _ = pyInt ((oh : ℚ) * f) := by rw [hraw]
      _ ≤ 0 := pyInt_nonpos _ (hneg oh hh)
  · simp [calculate_new_dimensions, rawDims, pyTruthyQ, pyTruthyZ]
  · simp [calculate_new_dimensions, rawDims, pyTruthyQ, pyTruthyZ]

/-- C7 witness: the amended statement at 1280×720 with factor −1/2. -/
theorem no_validation_of_directives_witness :
    (calculate_new_dimensions 1280 720 none none (some (-(1:ℚ)/2))).1 ≤ 0
    ∧ (calculate_new_dimensions 1280 720 none none (some (-(1:ℚ)/2))).2 ≤ 0
    ∧ calculate_new_dimensions 1280 720 none none (some 0)
        = calculate_new_dimensions 1280 720 none none none
    ∧ calculate_new_dimensions 1280 720 (some 0) (some 0) none
        = calculate_new_dimensions 1280 720 none none none :=
  no_validation_of_directives 1280 720 (-(1:ℚ)/2) (by norm_num) (by norm_num) (by norm_num)

theorem optimize_ok_inv (src : MediaInfo) (ope opf : Option String) (lvl : String)
    (mw mh : Option ℤ) (sf : Option ℚ) (ll ha : Bool) (ak : ℕ) (es : Bool) (enc : ℕ)
    (out : OptimizeOutcome)
    (hok : optimize_video_model true src ope opf lvl mw mh sf ll ha ak es enc = .ok out) :
    out.fmt = resolveOutputFormat ope opf src.format
    ∧ out.guardFired = guardFires es out.fmt src.format enc src.sizeBytes ll
    ∧ out.deliveredBytes = if out.guardFired then src.sizeBytes else enc := by
  by_cases hs : supportedFormat (resolveOutputFormat ope opf src.format) = true
  · have hmodel : optimize_video_model true src ope opf lvl mw mh sf ll ha ak es enc
        = .ok { fmt := resolveOutputFormat ope opf src.format
                dims := calculate_new_dimensions src.width src.height mw mh sf
                spec := buildEncodeSpec ll lvl
                  (videoCodecOf (resolveOutputFormat ope opf src.format)) src.bitrate ha ak
                guardFired := guardFires es (resolveOutputFormat ope opf src.format)
                  src.format enc src.sizeBytes ll
                deliveredBytes :=
                  if guardFires es (resolveOutputFormat ope opf src.format)
                      src.format enc src.sizeBytes ll
                  then src.sizeBytes else enc } := by
      unfold optimize_video_model
      simp [hs]
    rw [hmodel, Except.ok.injEq] at hok
    subst hok
    exact ⟨rfl, rfl, rfl⟩
  · have hmodel : optimize_video_model true src ope opf lvl mw mh sf ll ha ak es enc
        = .error ("Unsupported output format: " ++ resolveOutputFormat ope opf src.format) := by
      unfold optimize_video_model
      simp [hs]
    rw [hmodel] at hok
    exact absurd hok (by simp)

/-- C1 (counterexample): the size guard is not applied to every same-container
non-lossless run — it is also conditioned on the `ensure_smaller` parameter.
With `ensure_smaller=False`, a same-container (`mp4`→`mp4`) non-lossless run
whose encoded output (200 bytes) exceeds the source (100 bytes) delivers the
larger encoded file with no substitution. -/
theorem guard_disabled_delivers_larger_cex :
    optimize_video_model true ⟨1280, 720, "mp4", 100, some 2000000⟩ none none "medium"
        none none none false true 128 false 200
      = .ok ⟨"mp4", (1280, 720), ⟨23, "medium", some 1100, some 2200, some 128⟩, false, 200⟩
    ∧ (100:ℕ) < 200 := by
  refine ⟨?_, by norm_num⟩
  norm_num +decide [optimize_video_model, resolveOutputFormat, pyOrStr, supportedFormat,
    lookupFormat, videoCodecOf, calculate_new_dimensions, rawDims, evenAdjust, pyTruthyQ,
    pyTruthyZ, buildEncodeSpec, presetLookup, rateParams, level_to_ratio, pyTruthyN, pyInt,
    guardFires]

/-- C1 (amended): for every optimize run with `ensure_smaller` left at its
default `True`, when the resolved output container equals the source
container and lossless is false: if the encoded size is ≥ the source size
the guard fires and the original is delivered in the output slot, and the
delivered file is never larger than the source; the guard is skipped (and
the encoded file delivered as-is) whenever the container changed or lossless
was requested. -/
theorem guard_substitution_amended
    (src : MediaInfo) (ope opf : Option String) (lvl : String)
    (mw mh : Option ℤ) (sf : Option ℚ) (ll ha : Bool) (ak enc : ℕ)
    (out : OptimizeOutcome)
    (hok : optimize_video_model true src ope opf lvl mw mh sf ll ha ak true enc = .ok out) :
    (ll = false → out.fmt = src.format → src.sizeBytes ≤ enc →
      out.guardFired = true ∧ out.deliveredBytes = src.sizeBytes)
    ∧ (ll = false → out.fmt = src.format → out.deliveredBytes ≤ src.sizeBytes)
    ∧ (out.fmt ≠ src.format → out.guardFired = false ∧ out.deliveredBytes = enc)
    ∧ (ll = true → out.guardFired = false ∧ out.deliveredBytes = enc) := by
  obtain ⟨hfmt, hfired, hdel⟩ :=
    optimize_ok_inv src ope opf lvl mw mh sf ll ha ak true enc out hok
  refine ⟨?_, ?_, ?_, ?_⟩
  · intro hll heq hle
    subst hll
    have hg : out.guardFired = true := by
      rw [hfired, guardFires, heq]
      simp [hle]
    exact ⟨hg, by rw [hdel, hg]; simp⟩
  · intro hll heq
    subst hll
    have hb : out.guardFired = decide (src.sizeBytes ≤ enc) := by
      rw [hfired, guardFires, heq]
      simp
    by_cases hle : src.sizeBytes ≤ enc
    · rw [hdel, hb]
      simp [hle]
    · rw [hdel, hb]
      simp [hle]
      omega
  · intro hne
    have hg : out.guardFired = false := by
      rw [hfired, guardFires]
      simp [beq_eq_false_iff_ne.mpr hne]
    exact ⟨hg, by rw [hdel, hg]; simp⟩
  · intro hll
    subst hll
    have hg : out.guardFired = false := by
      rw [hfired, guardFires]
      simp
    exact ⟨hg, by rw [hdel, hg]; simp⟩

/-- C1 witness: the amended theorem applied to a concrete same-container
non-lossless run with encoded size 200 ≥ source size 100, where the guard
fires and delivers the 100-byte original. -/
theorem guard_substitution_amended_witness :
    (false = false → "mp4" = "mp4" → (100:ℕ) ≤ 200 → (true = true ∧ (100:ℕ) = 100))
    ∧ (false = false → "mp4" = "mp4" → (100:ℕ) ≤ 100)
    ∧ ("mp4" ≠ "mp4" → (true = false ∧ (100:ℕ) = 200))
    ∧ (false = true → (true = false ∧ (100:ℕ) = 200)) :=
  guard_substitution_amended ⟨1280, 720, "mp4", 100, some 2000000⟩ none none "medium"
    none none none false true 128 200
    ⟨"mp4", (1280, 720), ⟨23, "medium", some 1100, some 2200, some 128⟩, true, 100⟩
    (by norm_num +decide [optimize_video_model, resolveOutputFormat, pyOrStr, supportedFormat,
      lookupFormat, videoCodecOf, calculate_new_dimensions, rawDims, evenAdjust, pyTruthyQ,
      pyTruthyZ, buildEncodeSpec, presetLookup, rateParams, level_to_ratio, pyTruthyN,
      pyInt, guardFires])

/-- C9: the post-encode size guard is controlled by the `ensure_smaller`
parameter whose default is `True`; when a caller passes
`ensure_smaller=False`, a same-container non-lossless output larger than the
source is delivered unchanged with no substitution of the original. -/
theorem ensure_smaller_optout
    (src : MediaInfo) (ope opf : Option String) (lvl : String)
    (mw mh : Option ℤ) (sf : Option ℚ) (ha : Bool) (ak enc : ℕ)
    (out : OptimizeOutcome)
    (hok : optimize_video_model true src ope opf lvl mw mh sf false ha ak false enc = .ok out)
    (_hfmt : out.fmt = src.format) (_hgt : src.sizeBytes < enc) :
    ensure_smaller_default = true ∧ out.guardFired = false ∧ out.deliveredBytes = enc := by
  obtain ⟨_, hfired, hdel⟩ :=
    optimize_ok_inv src ope opf lvl mw mh sf false ha ak false enc out hok
  have hg : out.guardFired = false := by
    rw [hfired, guardFires]
    simp
  exact ⟨rfl, hg, by rw [hdel, hg]; simp⟩

/-- C9 witness: the concrete `ensure_smaller=False` run of the C1
counterexample, delivering the 200-byte encoded file over a 100-byte
source. -/
theorem ensure_smaller_optout_witness :
    ensure_smaller_default = true ∧ false = false ∧ (200:ℕ) = 200 :=
  ensure_smaller_optout ⟨1280, 720, "mp4", 100, some 2000000⟩ none none "medium"
    none none none true 128 200
    ⟨"mp4", (1280, 720), ⟨23, "medium", some 1100, some 2200, some 128⟩, false, 200⟩
    (by norm_num +decide [optimize_video_model, resolveOutputFormat, pyOrStr, supportedFormat,
      lookupFormat, videoCodecOf, calculate_new_dimensions, rawDims, evenAdjust, pyTruthyQ,
      pyTruthyZ, buildEncodeSpec, presetLookup, rateParams, level_to_ratio, pyTruthyN,
      pyInt, guardFires])
    rfl (by norm_num)

/-- C5: for a non-lossless request targeting the rate-cappable codec
(`libx264`) with a known source bitrate, the buffer is always
`max(2 × maxrate, 1000k)` and every tier ratio is strictly below 1; in
particular preset `high` with source bitrate 2,000,000 bps yields a ceiling
of 1,400,000 bps and a buffer of 2,800,000 bps (floor not triggered). -/
theorem rate_controller_high_2M (b : ℕ) (l : String) (mr bs : ℤ)
    (h : rateParams false "libx264" (some b) l = some (mr, bs)) :
    bs = max (mr * 2) 1000
    ∧ level_to_ratio l < 1
    ∧ rateParamsBps false "libx264" (some 2000000) "high" = some (1400000, 2800000) := by
  refine ⟨?_, (level_to_ratio_bounds l).2, ?_⟩
  · unfold rateParams at h
    split at h
    · rw [Option.some.injEq, Prod.mk.injEq] at h
      rw [← h.2, ← h.1]
    · exact absurd h (by simp)
  · norm_num +decide [rateParamsBps, rateParams, level_to_ratio, pyTruthyN, pyInt]

/-- C5 witness: the theorem at the claim's own instance
(`b = 2000000`, `l = "high"`, maxrate 1400 kbps, buffer 2800 kbps). -/
theorem rate_controller_high_2M_witness :
    (2800:ℤ) = max (1400 * 2) 1000
    ∧ level_to_ratio "high" < 1
    ∧ rateParamsBps false "libx264" (some 2000000) "high" = some (1400000, 2800000) :=
  rate_controller_high_2M 2000000 "high" 1400 2800
    (by norm_num +decide [rateParams, level_to_ratio, pyTruthyN, pyInt])

/-- C6: for every encode specification built by the engine, a present
bitrate ceiling under a non-lossless request is strictly below the measured
source bitrate (`maxrate_kbps · 1000 < bitrate_bps`); and a lossless request
carries no ceiling and no forced audio bitrate, and uses the lossless tier's
quantization (crf 0) and speed (`veryslow`) regardless of the named
preset. -/
theorem encode_spec_ceiling_lossless (level codec : String) (b : ℕ) (ha : Bool)
    (ak : ℕ) (m : ℤ) (hbpos : 0 < b)
    (hm : (buildEncodeSpec false level codec (some b) ha ak).maxrateKbps = some m) :
    m * 1000 < (b : ℤ)
    ∧ (∀ (lvl cdc : String) (br : Option ℕ) (ha2 : Bool) (k : ℕ),
        (buildEncodeSpec true lvl cdc br ha2 k).maxrateKbps = none
        ∧ (buildEncodeSpec true lvl cdc br ha2 k).audioBitrateKbps = none
        ∧ (buildEncodeSpec true lvl cdc br ha2 k).crf = 0
        ∧ (buildEncodeSpec true lvl cdc br ha2 k).speed = "veryslow") := by
  constructor
  · unfold buildEncodeSpec at hm
    rw [Option.map_eq_some'] at hm
    obtain ⟨p, hp, hp1⟩ := hm
    unfold rateParams at hp
    split at hp
    · rw [Option.some.injEq] at hp
      have hmval : m = pyInt ((b : ℚ) * level_to_ratio level / 1000) := by
        rw [← hp1, ← hp]
        simp
      obtain ⟨hr0, hr1⟩ := level_to_ratio_bounds level
      have hq0 : (0:ℚ) ≤ (b : ℚ) * level_to_ratio level / 1000 :=
        div_nonneg (mul_nonneg (Nat.cast_nonneg b) (le_of_lt hr0)) (by norm_num)
      have hle : (m : ℚ) ≤ (b : ℚ) * level_to_ratio level / 1000 := by
        rw [hmval]
        exact pyInt_le_of_nonneg _ hq0
      have hb0 : (0:ℚ) < (b : ℚ) := by exact_mod_cast hbpos
      have hlt : ((m * 1000 : ℤ) : ℚ) < (b : ℚ) := by
        push_cast
        nlinarith
      exact_mod_cast hlt
    · exact absurd hp (by simp)
  · intro lvl cdc br ha2 k
    refine ⟨?_, ?_, ?_, ?_⟩ <;>
      simp [buildEncodeSpec, rateParams, presetLookup]

/-- C6 witness: the theorem at preset `high`, codec `libx264`, source
bitrate 2,000,000 bps, where the ceiling is 1400 kbps. -/
theorem encode_spec_ceiling_lossless_witness :
    (1400:ℤ) * 1000 < ((2000000:ℕ) : ℤ)
    ∧ (∀ (lvl cdc : String) (br : Option ℕ) (ha2 : Bool) (k : ℕ),
        (buildEncodeSpec true lvl cdc br ha2 k).maxrateKbps = none
        ∧ (buildEncodeSpec true lvl cdc br ha2 k).audioBitrateKbps = none
        ∧ (buildEncodeSpec true lvl cdc br ha2 k).crf = 0
        ∧ (buildEncodeSpec true lvl cdc br ha2 k).speed = "veryslow") :=
  encode_spec_ceiling_lossless "high" "libx264" 2000000 true 128 1400 (by norm_num)
    (by norm_num +decide [buildEncodeSpec, rateParams, level_to_ratio, pyTruthyN,
      pyInt, presetLookup])

/-- C8: for every optimize or convert request whose resolved target
container is not in the closed supported set, the unsupported-format error
is raised before any encoder invocation — the result is the validation
error, is independent of whatever the encoder would have produced, and no
fallback format is substituted. -/
theorem unsupported_format_before_encode
    (src : MediaInfo) (ope opf : Option String) (lvl : String)
    (mw mh : Option ℤ) (sf : Option ℚ) (ll ha : Bool) (ak : ℕ) (es : Bool)
    (enc1 enc2 : ℕ) (target : String) (cr1 cr2 : Except String Unit)
    (h1 : supportedFormat (resolveOutputFormat ope opf src.format) = false)
    (h2 : supportedFormat (lstripDot (strToLower target)) = false) :
    optimize_video_model true src ope opf lvl mw mh sf ll ha ak es enc1
      = .error ("Unsupported output format: " ++ resolveOutputFormat ope opf src.format)
    ∧ optimize_video_model true src ope opf lvl mw mh sf ll ha ak es enc1
      = optimize_video_model true src ope opf lvl mw mh sf ll ha ak es enc2
    ∧ convert_format_model true target cr1
      = .error ("Unsupported target format: " ++ lstripDot (strToLower target))
    ∧ convert_format_model true target cr1 = convert_format_model true target cr2 := by
  have ho : ∀ e : ℕ, optimize_video_model true src ope opf lvl mw mh sf ll ha ak es e
      = .error ("Unsupported output format: " ++ resolveOutputFormat ope opf src.format) := by
    intro e
    unfold optimize_video_model
    simp [h1]
  have hc : ∀ c : Except String Unit, convert_format_model true target c
      = .error ("Unsupported target format: " ++ lstripDot (strToLower target)) := by
    intro c
    unfold convert_format_model
    simp [h2]
  exact ⟨ho enc1, by rw [ho enc1, ho enc2], hc cr1, by rw [hc cr1, hc cr2]⟩

/-- C8 witness: the theorem at the spec's own example `.xyz` — an optimize
request with explicit `output_format="xyz"` on an mp4 source and a convert
request targeting `.XYZ`. -/
theorem unsupported_format_before_encode_witness :
    optimize_video_model true ⟨1280, 720, "mp4", 100, some 2000000⟩ none (some "xyz")
        "medium" none none none false true 128 true 50
      = .error ("Unsupported output format: "
          ++ resolveOutputFormat none (some "xyz") (⟨1280, 720, "mp4", 100, some 2000000⟩ : MediaInfo).format)
    ∧ optimize_video_model true ⟨1280, 720, "mp4", 100, some 2000000⟩ none (some "xyz")
        "medium" none none none false true 128 true 50
      = optimize_video_model true ⟨1280, 720, "mp4", 100, some 2000000⟩ none (some "xyz")
        "medium" none none none false true 128 true 70
    ∧ convert_format_model true ".XYZ" (.ok ())
      = .error ("Unsupported target format: " ++ lstripDot (strToLower ".XYZ"))
    ∧ convert_format_model true ".XYZ" (.ok ()) = convert_format_model true ".XYZ" (.error "e") :=
  unsupported_format_before_encode ⟨1280, 720, "mp4", 100, some 2000000⟩ none (some "xyz")
    "medium" none none none false true 128 true 50 70 ".XYZ" (.ok ()) (.error "e")
    (by decide) (by decide)

/-- C2 (counterexample): a per-item optimize failure in a batch run is not
caught — it propagates and aborts the run, leaving the remaining valid item
unprocessed, contradicting "the run never raises for a partial failure". -/
theorem batch_abort_on_optimize_failure_cex :
    process_from_config []
        [⟨"broken", true, .error "Error optimizing video"⟩, ⟨"second", true, .ok ()⟩]
      = .error "Error optimizing video" := rfl

/-- C2 (amended): only the missing-local-path failure is isolated — a local
item whose path does not exist is logged and skipped and the loop continues
— while a download or optimize failure propagates and aborts the rest of
the run, and no success/failure count is computed.  The claim's concrete
scenario (one missing-path local item and two valid local items whose
optimizations succeed) does complete both valid items without aborting:
2 processed, 1 skipped. -/
theorem batch_missing_path_isolated (name : String) (o : Except String Unit)
    (rest : List LocalItem) :
    runLocalItems (⟨name, false, o⟩ :: rest)
      = (runLocalItems rest).map (BatchEvent.skippedMissing name :: ·)
    ∧ process_from_config []
        [⟨"a", true, .ok ()⟩, ⟨"missing", false, .ok ()⟩, ⟨"b", true, .ok ()⟩]
      = .ok [.processed "a", .skippedMissing "missing", .processed "b"]
    ∧ countProcessed [.processed "a", .skippedMissing "missing", .processed "b"] = 2
    ∧ countSkipped [.processed "a", .skippedMissing "missing", .processed "b"] = 1 :=
  ⟨rfl, rfl, rfl, rfl⟩

/-- C10: when the input string parses as an integer whose index is out of
range for the video list (index < 1 or index > length), `get_video_by_index`
returns `None`, the `ValueError` raised on that branch is caught by the same
handler that catches non-numeric input, and resolution falls through to
exact-name matching and then path-existence checking — identical to the
non-numeric path, never an index error. -/
theorem index_out_of_range_falls_through (n : ℤ) (videos : List (String × String))
    (pathExists : Bool) (s : String)
    (h : n < 1 ∨ (videos.length : ℤ) < n) :
    get_video_by_index (n - 1) videos = none
    ∧ resolve_video_input (some n) videos pathExists s
        = resolve_fallthrough videos pathExists s
    ∧ resolve_video_input (some n) videos pathExists s
        = resolve_video_input none videos pathExists s := by
  have hnone : get_video_by_index (n - 1) videos = none := by
    unfold get_video_by_index
    rw [if_neg]
    rintro ⟨h1, h2⟩
    omega
  refine ⟨hnone, ?_, ?_⟩
  · simp only [resolve_video_input, hnone]
  · simp only [resolve_video_input, hnone]

/-- C10 witness: index 5 against a one-element video list, with non-existing
path, resolves exactly as non-numeric input does. -/
theorem index_out_of_range_falls_through_witness :
    get_video_by_index (5 - 1) [("clip", "local_videos/clip.mp4")] = none
    ∧ resolve_video_input (some 5) [("clip", "local_videos/clip.mp4")] false "5"
        = resolve_fallthrough [("clip", "local_videos/clip.mp4")] false "5"
    ∧ resolve_video_input (some 5) [("clip", "local_videos/clip.mp4")] false "5"
        = resolve_video_input none [("clip", "local_videos/clip.mp4")] false "5" :=
  index_out_of_range_falls_through 5 [("clip", "local_videos/clip.mp4")] false "5"
    (by norm_num)
